import Mathlib

/-
Verification of the TechAI repository (two command-line utilities):
`imagen_generate.py` (a usage-capped image generator with a monthly quota
gate persisted in a JSON file) and `freepik_client.py` (a stock-asset
search client).  The Python source is shallowly embedded below: the JSON
usage file becomes an explicit `StoreFile` value threaded through the
functions, the current calendar month (computed in the source via
`datetime.now().strftime` with year-month granularity) becomes an explicit
`String` parameter, and exceptions become `Except` results.
-/

/-- The persisted usage record of `imagen_usage.json`: a calendar month
identifier (`YYYY-MM` string) and the non-negative number of generation
calls made so far that month. -/
structure UsageRecord where
  month : String
  count : Nat
deriving DecidableEq, Repr

/-- The backing usage file: absent, present with a record that parses, or
present but corrupt (content `json.load` fails on). -/
inductive StoreFile where
  | missing : StoreFile
  | valid (r : UsageRecord) : StoreFile
  | corrupt : StoreFile
deriving DecidableEq, Repr

/-- The error `json.load` raises on corrupt content
(`json.JSONDecodeError`), which `load_usage` does not catch. -/
inductive LoadError where
  | parseError : LoadError
deriving DecidableEq, Repr

/-- `MONTHLY_CAP = 2500`, the cap constant of `imagen_generate.py`. -/
def MONTHLY_CAP : Nat := 2500

/-- `load_usage` of `imagen_generate.py`: if the usage file exists, parse
it (a parse failure propagates as an error); otherwise synthesize the
default record for the current month with count 0. -/
def load_usage (file : StoreFile) (current_month : String) :
    Except LoadError UsageRecord :=
  match file with
  | .missing => .ok { month := current_month, count := 0 }
  | .valid r => .ok r
  | .corrupt => .error .parseError

/-- `save_usage` of `imagen_generate.py`: write the record to the usage
file in full. -/
def save_usage (usage : UsageRecord) : StoreFile :=
  .valid usage

/-- `check_and_increment_usage` of `imagen_generate.py`, parameterized by
the cap (the source reads the module constant `MONTHLY_CAP`): load the
record, reset it to `(current_month, 0)` if its month differs from the
current month, deny without writing when `count >= cap`, otherwise
increment, save and allow.  A load error (corrupt file) propagates. -/
def check_and_increment_usage (cap : Nat) (current_month : String)
    (file : StoreFile) : Except LoadError (Bool × StoreFile) :=
  match load_usage file current_month with
  | .error e => .error e
  | .ok usage0 =>
    let usage := if usage0.month ≠ current_month then
        { month := current_month, count := 0 } else usage0
    if usage.count ≥ cap then
      .ok (false, file)
    else
      .ok (true, save_usage { usage with count := usage.count + 1 })

/-- The usage file after one gate call.  On a load error the Python
process dies from the exception before any write, so the file is left
as it was. -/
def gateStep (cap : Nat) (current_month : String) (file : StoreFile) :
    StoreFile :=
  match check_and_increment_usage cap current_month file with
  | .ok (_, f) => f
  | .error _ => file

/-- The usage file after `k` sequential gate calls in the same month,
starting from the file `f0`. -/
def gateStates (cap : Nat) (current_month : String) (f0 : StoreFile) :
    Nat → StoreFile
  | 0 => f0
  | k + 1 => gateStep cap current_month (gateStates cap current_month f0 k)

/-- The boolean a gate call returns on the given file, or `none` when the
call raises (corrupt file). -/
def gateDecision (cap : Nat) (current_month : String) (file : StoreFile) :
    Option Bool :=
  match check_and_increment_usage cap current_month file with
  | .ok (b, _) => some b
  | .error _ => none

/-- The distinct failure kinds of the gated generation flow
(spec section 4.3). -/
inductive GenFailure where
  | quotaExceeded : GenFailure
  | dependencyMissing : GenFailure
  | transportError : GenFailure
deriving DecidableEq, Repr

/-- The observable outcome of one `generate_image` run: the returned
output path or the failure kind, the number of external image-generation
calls actually issued, and the usage file afterwards. -/
structure GenOutcome where
  result : Except GenFailure String
  imagenCalls : Nat
  file : StoreFile
deriving Repr

/-- `generate_image` of `imagen_generate.py`: run the quota gate first and
stop (`sys.exit(1)`, kind `quotaExceeded`) when it denies, before any
credential setup, SDK import or external call; then probe the SDK
dependency (`ImportError` becomes `dependencyMissing`); then issue exactly
one external generation call, whose own failure is `transportError` and
whose success saves the image and returns the output path.  The flags
`depsInstalled` and `callOk` stand for the environment: whether the
SDK import succeeds and whether the external call succeeds.  A corrupt usage
file propagates the load error. -/
def generate_image (cap : Nat) (current_month : String) (file : StoreFile)
    (depsInstalled : Bool) (callOk : Bool) (_prompt : String)
    (output_path : String) : Except LoadError GenOutcome :=
  match check_and_increment_usage cap current_month file with
  | .error e => .error e
  | .ok (false, f) => .ok { result := .error .quotaExceeded,
                            imagenCalls := 0, file := f }
  | .ok (true, f) =>
    if !depsInstalled then
      .ok { result := .error .dependencyMissing, imagenCalls := 0, file := f }
    else if callOk then
      .ok { result := .ok output_path, imagenCalls := 1, file := f }
    else
      .ok { result := .error .transportError, imagenCalls := 1, file := f }

/-- One search hit as the client observes it: the `id`, `title` and `url`
fields of an element of the response body's `data` array. -/
structure Resource where
  id : String
  title : String
  url : String
deriving DecidableEq, Repr

/-- What the one outbound HTTP GET of `search_resources` does:
`transportFail` — `requests.get` itself raises, so no response object is
ever bound; `httpError` — a response arrives but `raise_for_status`
raises on its error status; `success` — a success status whose JSON body
has the given `data` array (`none` when the key is absent, which
`data.get` replaces by the empty list). -/
inductive HttpOutcome where
  | transportFail : HttpOutcome
  | httpError (status : Nat) (text : String) : HttpOutcome
  | success (dataField : Option (List Resource)) : HttpOutcome
deriving DecidableEq, Repr

/-- The Python exception that escapes `search_resources` unhandled. -/
inductive PyExc where
  | unboundLocal : PyExc
deriving DecidableEq, Repr

/-- The diagnostic kind the handler prints (the `API Error` line, the
spec's `TransportError` diagnostic). -/
inductive SearchDiag where
  | transportError : SearchDiag
deriving DecidableEq, Repr

/-- The observable outcome of one `search_resources` call: the returned
resource list, or the exception that escaped, plus the diagnostic the
handler printed before returning or dying. -/
structure SearchOutcome where
  result : Except PyExc (List Resource)
  diag : Option SearchDiag
deriving Repr

/-- `search_resources` of `freepik_client.py`.  On success the parsed
`data` array (default `[]` when the key is absent) is returned unchanged.
On an HTTP error status, `raise_for_status` raises inside the `try`, the
`except requests.exceptions.RequestException` handler prints the API
Error diagnostic, reads `response.text` (bound, since a response exists)
and returns `[]`.  On a transport failure `requests.get` raises before
`response` is assigned; the handler prints the diagnostic and then
evaluates `response.text` on the unbound local, so an `UnboundLocalError`
escapes the function. -/
def search_resources (outcome : HttpOutcome) : SearchOutcome :=
  match outcome with
  | .success dataField => { result := .ok (dataField.getD []), diag := none }
  | .httpError _ _ => { result := .ok [], diag := some .transportError }
  | .transportFail => { result := .error .unboundLocal,
                        diag := some .transportError }

/-- A gate call on a missing usage file with a positive cap allows and
writes the record `(current_month, 1)`. -/
lemma check_missing (cap : Nat) (m : String) (h : 0 < cap) :
    check_and_increment_usage cap m .missing = .ok (true, .valid ⟨m, 1⟩) := by
  simp [check_and_increment_usage, load_usage, save_usage, Nat.not_le.mpr h]

/-- A gate call on a stored record for the current month compares its
count against the cap: at or above the cap it denies without writing,
below it allows and writes the incremented record. -/
lemma check_valid_same (cap : Nat) (m : String) (r : UsageRecord)
    (hm : r.month = m) :
    check_and_increment_usage cap m (.valid r) =
      if r.count ≥ cap then .ok (false, .valid r)
      else .ok (true, .valid ⟨m, r.count + 1⟩) := by
  simp [check_and_increment_usage, load_usage, save_usage, hm]

/-- A denied gate call leaves the usage file exactly as it was. -/
lemma check_false_preserves (cap : Nat) (m : String) (f f' : StoreFile)
    (h : check_and_increment_usage cap m f = .ok (false, f')) : f' = f := by
  unfold check_and_increment_usage at h
  cases f <;> simp [load_usage, save_usage] at h <;>
    (try split at h) <;> (try split at h) <;> simp_all

/-- The usage file after `k` same-month gate calls from a missing file,
with a positive cap: still missing for `k = 0`, otherwise the record
`(m, min k cap)`. -/
lemma gateStates_missing (cap : Nat) (m : String) (h : 0 < cap) (k : Nat) :
    gateStates cap m .missing k =
      if k = 0 then .missing else .valid ⟨m, min k cap⟩ := by
  induction k with
  | zero => rfl
  | succ k ih =>
    have hstep : gateStates cap m .missing (k + 1)
        = gateStep cap m (gateStates cap m .missing k) := rfl
    rw [hstep, ih]
    by_cases hk : k = 0
    · subst hk
      rw [if_pos rfl, if_neg (Nat.one_ne_zero)]
      rw [gateStep, check_missing cap m h]
      have h1 : min 1 cap = 1 := by omega
      simp [h1]
    · rw [if_neg hk, if_neg (Nat.succ_ne_zero k)]
      rcases le_or_lt cap k with hc | hc
      · have hcount : min k cap = cap := by omega
        rw [gateStep, check_valid_same cap m ⟨m, min k cap⟩ rfl]
        simp only [hcount]
        rw [if_pos (le_refl cap)]
        have : min (k + 1) cap = cap := by omega
        simp [this]
      · have hcond : ¬ ((⟨m, min k cap⟩ : UsageRecord).count ≥ cap) := by
          simp only []
          omega
        rw [gateStep, check_valid_same cap m ⟨m, min k cap⟩ rfl, if_neg hcond]
        have : min k cap + 1 = min (k + 1) cap := by omega
        simp [this]

/-- With a positive cap, the `(k+1)`-st same-month gate call from a
missing file returns allowed exactly when `k < cap`. -/
lemma gateDecision_missing (cap : Nat) (m : String) (h : 0 < cap) (k : Nat) :
    gateDecision cap m (gateStates cap m .missing k)
      = some (decide (k < cap)) := by
  rw [gateStates_missing cap m h k]
  by_cases hk : k = 0
  · subst hk
    rw [if_pos rfl, gateDecision, check_missing cap m h]
    simp [h]
  · rw [if_neg hk, gateDecision, check_valid_same cap m ⟨m, min k cap⟩ rfl]
    rcases le_or_lt cap k with hc | hc
    · have hcond : (⟨m, min k cap⟩ : UsageRecord).count ≥ cap := by
        simp only []
        omega
      rw [if_pos hcond]
      have : ¬ k < cap := by omega
      simp [this]
    · have hcond : ¬ ((⟨m, min k cap⟩ : UsageRecord).count ≥ cap) := by
        simp only []
        omega
      rw [if_neg hcond]
      simp [hc]

/-- With a zero cap, every gate call from a missing file denies, so the
file stays missing forever. -/
lemma gateStates_capzero (m : String) (k : Nat) :
    gateStates 0 m .missing k = .missing := by
  induction k with
  | zero => rfl
  | succ k ih =>
    have hstep : gateStates 0 m .missing (k + 1)
        = gateStep 0 m (gateStates 0 m .missing k) := rfl
    rw [hstep, ih]
    simp [gateStep, check_and_increment_usage, load_usage]

/-- With a zero cap, a gate call on a missing file returns denied. -/
lemma gateDecision_capzero (m : String) :
    gateDecision 0 m .missing = some false := by
  simp [gateDecision, check_and_increment_usage, load_usage]

/-- Claim C1: for every positive cap and every sequence of `N` sequential
quota-gate calls in the same calendar month, starting from no persisted
record, if `N ≤ cap` then all `N` calls return allowed and the persisted
count after the `N`-th call equals `N`. -/
theorem gate_allows_all_calls_under_cap (cap N : Nat) (m : String)
    (hcap : 0 < cap) (hN : 1 ≤ N) (hNcap : N ≤ cap) :
    (∀ i, i < N →
      gateDecision cap m (gateStates cap m .missing i) = some true) ∧
    gateStates cap m .missing N = .valid ⟨m, N⟩ := by
  constructor
  · intro i hi
    rw [gateDecision_missing cap m hcap i]
    simp [show i < cap by omega]
  · rw [gateStates_missing cap m hcap N, if_neg (by omega : ¬ N = 0)]
    have : min N cap = N := by omega
    simp [this]

/-- Witness for C1 at cap 2, month 2025-01, N = 2. -/
theorem gate_allows_all_calls_under_cap_witness :
    gateDecision 2 "2025-01" (gateStates 2 "2025-01" .missing 1)
        = some true ∧
    gateStates 2 "2025-01" .missing 2 = .valid ⟨"2025-01", 2⟩ :=
  ⟨(gate_allows_all_calls_under_cap 2 2 "2025-01" (by decide) (by decide)
      (by decide)).1 1 (by decide),
   (gate_allows_all_calls_under_cap 2 2 "2025-01" (by decide) (by decide)
      (by decide)).2⟩

/-- Claim C2: for `N > cap` same-month calls from no persisted record,
the `(i+1)`-st call is allowed exactly when `i < cap`; any record ever
persisted has count at most the cap; and once the cap is reached the
persisted record stays at `(m, cap)` for all further same-month calls. -/
theorem gate_denies_beyond_cap (cap N : Nat) (m : String) (hN : cap < N) :
    (∀ i, i < N → gateDecision cap m (gateStates cap m .missing i)
        = some (decide (i < cap))) ∧
    (∀ k, k ≤ N → ∀ r, gateStates cap m .missing k = .valid r →
        r.count ≤ cap) ∧
    (0 < cap → ∀ k, cap ≤ k → k ≤ N →
        gateStates cap m .missing k = .valid ⟨m, cap⟩) := by
  refine ⟨?_, ?_, ?_⟩
  · intro i _
    rcases Nat.eq_zero_or_pos cap with hc | hc
    · subst hc
      rw [gateStates_capzero m i, gateDecision_capzero m]
      simp
    · exact gateDecision_missing cap m hc i
  · intro k _ r hr
    rcases Nat.eq_zero_or_pos cap with hc | hc
    · subst hc
      rw [gateStates_capzero m k] at hr
      simp at hr
    · rw [gateStates_missing cap m hc k] at hr
      by_cases hk : k = 0
      · subst hk
        simp at hr
      · rw [if_neg hk] at hr
        injection hr with hr
        rw [← hr]
        simp only []
        omega
  · intro hc k hk hkN
    rw [gateStates_missing cap m hc k, if_neg (by omega : ¬ k = 0)]
    have : min k cap = cap := by omega
    simp [this]

/-- Witness for C2 at cap 1, month 2025-01, N = 2. -/
theorem gate_denies_beyond_cap_witness :
    gateDecision 1 "2025-01" (gateStates 1 "2025-01" .missing 1)
        = some (decide (1 < 1)) ∧
    gateStates 1 "2025-01" .missing 2 = .valid ⟨"2025-01", 1⟩ :=
  ⟨(gate_denies_beyond_cap 1 2 "2025-01" (by decide)).1 1 (by decide),
   (gate_denies_beyond_cap 1 2 "2025-01" (by decide)).2.2 (by decide) 2
      (by decide) (by decide)⟩

/-- Claim C3: when the quota gate denies, `generate_image` fails with
kind `quotaExceeded`, the external image-generation call is never made
(zero calls issued), and the usage file is exactly the initial one (no
partial state change). -/
theorem generate_image_denied_no_external_call (cap : Nat) (m : String)
    (f f' : StoreFile) (depsInstalled callOk : Bool) (prompt out : String)
    (hdeny : check_and_increment_usage cap m f = .ok (false, f')) :
    generate_image cap m f depsInstalled callOk prompt out =
      .ok { result := .error .quotaExceeded, imagenCalls := 0, file := f }
      ∧ f' = f := by
  have hpres : f' = f := check_false_preserves cap m f f' hdeny
  subst hpres
  refine ⟨?_, rfl⟩
  simp [generate_image, hdeny]

/-- Witness for C3: cap 1 with a current-month record already at count 1,
so the gate denies. -/
theorem generate_image_denied_no_external_call_witness :
    generate_image 1 "2025-01" (.valid ⟨"2025-01", 1⟩) true true
        "a red panda" "output.png" =
      .ok { result := .error .quotaExceeded, imagenCalls := 0,
            file := .valid ⟨"2025-01", 1⟩ }
      ∧ (.valid ⟨"2025-01", 1⟩ : StoreFile) = .valid ⟨"2025-01", 1⟩ :=
  generate_image_denied_no_external_call 1 "2025-01"
    (.valid ⟨"2025-01", 1⟩) (.valid ⟨"2025-01", 1⟩) true true
    "a red panda" "output.png" (by rfl)

/-- Claim C4: on a persisted record from a different month (any count,
including one equal to the cap), the next gate call in the new month
resets, allows, and persists the record `(current_month, 1)`; the stale
count does not influence the outcome. -/
theorem gate_month_rollover_resets (cap : Nat) (m : String)
    (r : UsageRecord) (hcap : 0 < cap) (hm : r.month ≠ m) :
    check_and_increment_usage cap m (.valid r)
      = .ok (true, .valid ⟨m, 1⟩) := by
  simp [check_and_increment_usage, load_usage, save_usage, hm,
    Nat.not_le.mpr hcap]

/-- Witness for C4: a prior-month record whose count equals the cap. -/
theorem gate_month_rollover_resets_witness :
    check_and_increment_usage 2 "2025-01" (.valid ⟨"2024-12", 2⟩)
      = .ok (true, .valid ⟨"2025-01", 1⟩) :=
  gate_month_rollover_resets 2 "2025-01" ⟨"2024-12", 2⟩ (by decide)
    (by decide)

/-- Claim C5: on a current-month record whose count is at least the cap,
the gate returns denied and performs no write: the file afterwards is
exactly the record it held before. -/
theorem gate_denial_state_preserving (cap : Nat) (m : String)
    (r : UsageRecord) (hm : r.month = m) (hc : r.count ≥ cap) :
    check_and_increment_usage cap m (.valid r) = .ok (false, .valid r) := by
  rw [check_valid_same cap m r hm, if_pos hc]

/-- Witness for C5 at cap 2 with a current-month record of count 2. -/
theorem gate_denial_state_preserving_witness :
    check_and_increment_usage 2 "2025-01" (.valid ⟨"2025-01", 2⟩)
      = .ok (false, .valid ⟨"2025-01", 2⟩) :=
  gate_denial_state_preserving 2 "2025-01" ⟨"2025-01", 2⟩ (by decide)
    (by decide)

/-- Claim C6: with a (positive) configured cap, a missing usage file is
observationally equivalent to a file holding the record
`(current_month, 0)`: every same-month gate call returns the same
decision from both, and after each call (one or more) the persisted
files are identical. -/
theorem missing_store_equiv_zero_record (cap : Nat) (m : String)
    (hcap : 0 < cap) :
    (∀ k, gateDecision cap m (gateStates cap m .missing k)
        = gateDecision cap m (gateStates cap m (.valid ⟨m, 0⟩) k)) ∧
    (∀ k, 1 ≤ k → gateStates cap m .missing k
        = gateStates cap m (.valid ⟨m, 0⟩) k) := by
  have hone : check_and_increment_usage cap m (.valid ⟨m, 0⟩)
      = .ok (true, .valid ⟨m, 1⟩) := by
    rw [check_valid_same cap m ⟨m, 0⟩ rfl]
    have hcond : ¬ ((⟨m, 0⟩ : UsageRecord).count ≥ cap) := by
      simp only []
      omega
    rw [if_neg hcond]
  have hstates : ∀ k, 1 ≤ k → gateStates cap m .missing k
      = gateStates cap m (.valid ⟨m, 0⟩) k := by
    intro k hk
    induction k with
    | zero => omega
    | succ k ih =>
      by_cases hk0 : k = 0
      · subst hk0
        show gateStep cap m .missing = gateStep cap m (.valid ⟨m, 0⟩)
        rw [gateStep, gateStep, check_missing cap m hcap, hone]
      · have heq := ih (by omega)
        show gateStep cap m (gateStates cap m .missing k)
          = gateStep cap m (gateStates cap m (.valid ⟨m, 0⟩) k)
        rw [heq]
  refine ⟨?_, hstates⟩
  intro k
  by_cases hk0 : k = 0
  · subst hk0
    show gateDecision cap m .missing = gateDecision cap m (.valid ⟨m, 0⟩)
    rw [gateDecision, gateDecision, check_missing cap m hcap, hone]
  · rw [hstates k (by omega)]

/-- Witness for C6 at cap 1, month 2025-01: first decision and the file
after one call agree between the two starting stores. -/
theorem missing_store_equiv_zero_record_witness :
    gateDecision 1 "2025-01" (gateStates 1 "2025-01" .missing 0)
      = gateDecision 1 "2025-01"
          (gateStates 1 "2025-01" (.valid ⟨"2025-01", 0⟩) 0) ∧
    gateStates 1 "2025-01" .missing 1
      = gateStates 1 "2025-01" (.valid ⟨"2025-01", 0⟩) 1 :=
  ⟨(missing_store_equiv_zero_record 1 "2025-01" (by decide)).1 0,
   (missing_store_equiv_zero_record 1 "2025-01" (by decide)).2 1
      (by decide)⟩

/-- Claim C7: `load_usage` tolerates a missing store by returning the
synthesized default `(current_month, 0)`, while on a present-but-corrupt
store it propagates the parse error and in particular never silently
returns any record (so it never resets the count to zero). -/
theorem load_usage_missing_default_corrupt_fails (m : String) :
    load_usage .missing m = .ok ⟨m, 0⟩ ∧
    load_usage .corrupt m = .error .parseError ∧
    ∀ r : UsageRecord, load_usage .corrupt m ≠ .ok r := by
  refine ⟨rfl, rfl, ?_⟩
  intro r h
  simp [load_usage] at h

/-- Claim C8 (evaluation at the failing input): on a transport failure
the handler prints the API-error diagnostic but then dies on the unbound
`response` local, so an exception escapes `search_resources` instead of
an empty list being returned; on an HTTP error status (where a response
object exists) the claimed behavior does hold. -/
theorem search_transport_failure_exception_escapes :
    (search_resources .transportFail).result
        = .error .unboundLocal ∧
    (search_resources .transportFail).diag = some .transportError ∧
    (search_resources (.httpError 500 "Internal Server Error")).result
        = .ok [] ∧
    (search_resources (.httpError 500 "Internal Server Error")).diag
        = some .transportError :=
  ⟨rfl, rfl, rfl, rfl⟩

/-- Claim C9: a successful search response has its parsed `data` array
returned unchanged (hence in server-provided order) with no diagnostic,
and a successful response with zero items yields the empty list. -/
theorem search_success_returns_items_in_order (items : List Resource) :
    (search_resources (.success (some items))).result = .ok items ∧
    (search_resources (.success (some items))).diag = none ∧
    (search_resources (.success (some ([] : List Resource)))).result
      = .ok ([] : List Resource) :=
  ⟨rfl, rfl, rfl⟩

/-- A gate call on a stored record from a different month: with a zero
cap it denies without writing, otherwise it allows and writes the reset
record `(current_month, 1)`. -/
lemma check_valid_diff (cap : Nat) (m : String) (r : UsageRecord)
    (hm : r.month ≠ m) :
    check_and_increment_usage cap m (.valid r) =
      if cap = 0 then .ok (false, .valid r)
      else .ok (true, .valid ⟨m, 1⟩) := by
  rcases Nat.eq_zero_or_pos cap with hc | hc
  · subst hc
    simp [check_and_increment_usage, load_usage, save_usage, hm]
  · rw [if_neg (by omega)]
    simp [check_and_increment_usage, load_usage, save_usage, hm,
      Nat.not_le.mpr hc]

/-- Claim C10: any usage file a gate call produces is either exactly the
input file (no write happened) or a record written through `save_usage`
whose month is the current month and whose count is at least 1; the gate
never writes a past month or a zero count. -/
theorem gate_persists_current_month_positive_count (cap : Nat)
    (m : String) (f : StoreFile) (b : Bool) (f' : StoreFile)
    (h : check_and_increment_usage cap m f = .ok (b, f')) :
    f' = f ∨ ∃ r : UsageRecord,
      f' = save_usage r ∧ r.month = m ∧ 1 ≤ r.count := by
  cases f with
  | corrupt => simp [check_and_increment_usage, load_usage] at h
  | missing =>
    rcases Nat.eq_zero_or_pos cap with hc | hc
    · subst hc
      have hzero : check_and_increment_usage 0 m .missing
          = .ok (false, .missing) := by
        simp [check_and_increment_usage, load_usage]
      rw [hzero] at h
      simp only [Except.ok.injEq, Prod.mk.injEq] at h
      left
      exact h.2.symm
    · rw [check_missing cap m hc] at h
      simp only [Except.ok.injEq, Prod.mk.injEq] at h
      right
      exact ⟨⟨m, 1⟩, h.2.symm, rfl, Nat.le_refl 1⟩
  | valid r =>
    by_cases hm : r.month = m
    · rw [check_valid_same cap m r hm] at h
      by_cases hcnt : r.count ≥ cap
      · rw [if_pos hcnt] at h
        simp only [Except.ok.injEq, Prod.mk.injEq] at h
        left
        exact h.2.symm
      · rw [if_neg hcnt] at h
        simp only [Except.ok.injEq, Prod.mk.injEq] at h
        right
        exact ⟨⟨m, r.count + 1⟩, h.2.symm, rfl, Nat.succ_le_succ (Nat.zero_le r.count)⟩
    · rw [check_valid_diff cap m r hm] at h
      by_cases hc : cap = 0
      · rw [if_pos hc] at h
        simp only [Except.ok.injEq, Prod.mk.injEq] at h
        left
        exact h.2.symm
      · rw [if_neg hc] at h
        simp only [Except.ok.injEq, Prod.mk.injEq] at h
        right
        exact ⟨⟨m, 1⟩, h.2.symm, rfl, Nat.le_refl 1⟩

/-- Witness for C10: the first call of the month from a missing file
writes the record with the current month and count 1. -/
theorem gate_persists_current_month_positive_count_witness :
    (.valid ⟨"2025-01", 1⟩ : StoreFile) = .missing ∨
    ∃ r : UsageRecord, (.valid ⟨"2025-01", 1⟩ : StoreFile) = save_usage r ∧
      r.month = "2025-01" ∧ 1 ≤ r.count :=
  gate_persists_current_month_positive_count 1 "2025-01" .missing true
    (.valid ⟨"2025-01", 1⟩) (by rfl)
